import Mathlib

/-!
# Binary config parser registry (`src/namb/binary_parser_registry.h`)

A shallow embedding of `nam::namb::BinaryConfigParserRegistry` and of
`BinaryConfigParserHelper`, with theorems about registration, lookup and dispatch.

Conventions of the embedding.

* `uint8_t` architecture ids are `Fin 256`.
* The types the header only mentions (`BinaryReader`, `ModelMetadata`, `ModelConfig`,
  declared in headers that are not part of `src/`) are type parameters: the registry never
  looks inside them.
* A `const float*&` is the position of the first unread value, counted in elements from the
  start of the caller's storage; a `size_t&` is a natural number (below `2 ^ 64` for every
  value a caller can pass).
* A call that takes arguments by reference returns, next to its outcome, the values those
  references hold when the call ends. `σ` is whatever further state a parser (a
  `std::function`, which may capture variables) can read and write; the registry object is
  not part of it.
* A running parser can also reach the registry itself: `instance()` and `registerParser` are
  public, so the `std::function` that `parse` invokes may call `instance().registerParser(...)`
  while it runs. These calls are not part of the parser's function value; they are given with
  the call, as the list of registrations of `Call.parseReentrant`.
* A thrown C++ exception is a value of `Thrown ε`: `std::runtime_error` with its `what()`
  text, or any other thrown value `ε`. An empty `std::function` is the parser that throws
  (`std::bad_function_call`) and touches none of its arguments.
-/

namespace nam.namb

/-- The `uint8_t` architecture id. -/
abbrev ArchId := Fin 256

/-- One past the largest `size_t`. -/
def SIZE_MODULUS : Nat := 2 ^ 64

/-- A thrown exception: the `std::runtime_error` the registry itself throws (a parser may throw
one too), or any other value a parser throws. -/
inductive Thrown (ε : Type) where
  | runtime_error (what : String)
  | other (e : ε)
  deriving DecidableEq, Repr

/-- How a call of type `std::unique_ptr<ModelConfig>(...)` ends: it returns a pointer (which may
be null, `none`) or throws. -/
inductive Outcome (ModelConfig ε : Type) where
  | returned (config : Option ModelConfig)
  | thrown (e : Thrown ε)
  deriving DecidableEq, Repr

/-- What the caller observes when a parser call ends: the outcome, the values now held by the
three by-reference arguments, and the ambient state. -/
structure ParseResult (BinaryReader ModelConfig ε σ : Type) where
  outcome : Outcome ModelConfig ε
  reader : BinaryReader
  weights : Nat
  weight_count : Nat
  env : σ
  deriving DecidableEq, Repr

/-- The `std::function` type
`unique_ptr<ModelConfig>(BinaryReader&, const float*&, size_t&, const ModelMetadata&)`. -/
abbrev BinaryConfigParserFunction (BinaryReader ModelMetadata ModelConfig ε σ : Type) : Type :=
  BinaryReader → Nat → Nat → ModelMetadata → σ → ParseResult BinaryReader ModelConfig ε σ

/-- The registry class: its only member is
`std::unordered_map<uint8_t, BinaryConfigParserFunction> parsers_`, a finite map with at most one
entry per key. -/
structure BinaryConfigParserRegistry (BinaryReader ModelMetadata ModelConfig ε σ : Type) where
  parsers_ : AList (fun _ : ArchId =>
    BinaryConfigParserFunction BinaryReader ModelMetadata ModelConfig ε σ)

/-- The helper struct: it declares no data member. -/
structure BinaryConfigParserHelper where
  deriving DecidableEq, Repr

/-- The decimal text `std::to_string` gives for a `uint8_t` (promoted to `int`). -/
def to_string (arch_id : ArchId) : String :=
  Nat.repr arch_id.val

section Registry

variable {BinaryReader ModelMetadata ModelConfig ε σ : Type}

namespace BinaryConfigParserRegistry

/-- The defaulted private constructor: an empty map. -/
def empty : BinaryConfigParserRegistry BinaryReader ModelMetadata ModelConfig ε σ :=
  { parsers_ := ∅ }

/-- The body `parsers_[arch_id] = std::move(func);`: insert the key if it is absent, then assign
the mapped value. -/
def registerParser (self : BinaryConfigParserRegistry BinaryReader ModelMetadata ModelConfig ε σ)
    (arch_id : ArchId)
    (func : BinaryConfigParserFunction BinaryReader ModelMetadata ModelConfig ε σ) :
    BinaryConfigParserRegistry BinaryReader ModelMetadata ModelConfig ε σ :=
  { parsers_ := self.parsers_.insert arch_id func }

/-- The body `return parsers_.find(arch_id) != parsers_.end();`. -/
def has (self : BinaryConfigParserRegistry BinaryReader ModelMetadata ModelConfig ε σ)
    (arch_id : ArchId) : Bool :=
  (self.parsers_.lookup arch_id).isSome

/-- The `const` member `parse`: look the id up; when there is no entry throw
`std::runtime_error("NAMB: unknown architecture ID " + std::to_string(arch_id))`, with the
by-reference arguments untouched; otherwise call the stored function on the arguments. -/
def parse (self : BinaryConfigParserRegistry BinaryReader ModelMetadata ModelConfig ε σ)
    (arch_id : ArchId) (reader : BinaryReader) (weights : Nat) (weight_count : Nat)
    (meta : ModelMetadata) (env : σ) : ParseResult BinaryReader ModelConfig ε σ :=
  match self.parsers_.lookup arch_id with
  | none =>
    { outcome := Outcome.thrown
        (Thrown.runtime_error ("NAMB: unknown architecture ID " ++ to_string arch_id))
      reader := reader
      weights := weights
      weight_count := weight_count
      env := env }
  | some func => func reader weights weight_count meta env

end BinaryConfigParserRegistry

/-- The static storage behind `instance()`: the function-local
`static BinaryConfigParserRegistry registry`, which does not exist (`none`) until the first call
constructs it. -/
structure Statics (BinaryReader ModelMetadata ModelConfig ε σ : Type) where
  registry : Option (BinaryConfigParserRegistry BinaryReader ModelMetadata ModelConfig ε σ)

/-- The static member `instance()`: the first call constructs the local static (empty), every
call returns a reference to it. The result is the registry the reference denotes together with
the static storage after the call. -/
def BinaryConfigParserRegistry.instance
    (statics : Statics BinaryReader ModelMetadata ModelConfig ε σ) :
    BinaryConfigParserRegistry BinaryReader ModelMetadata ModelConfig ε σ ×
      Statics BinaryReader ModelMetadata ModelConfig ε σ :=
  match statics.registry with
  | some registry => (registry, statics)
  | none => (BinaryConfigParserRegistry.empty, ⟨some BinaryConfigParserRegistry.empty⟩)

/-- The constructor `BinaryConfigParserHelper(arch_id, func)`, whose body is
`BinaryConfigParserRegistry::instance().registerParser(arch_id, std::move(func));`: the
registration is written through the reference `instance()` returned. The result is the
constructed helper and the static storage afterwards. -/
def BinaryConfigParserHelper.ctor (arch_id : ArchId)
    (func : BinaryConfigParserFunction BinaryReader ModelMetadata ModelConfig ε σ)
    (statics : Statics BinaryReader ModelMetadata ModelConfig ε σ) :
    BinaryConfigParserHelper × Statics BinaryReader ModelMetadata ModelConfig ε σ :=
  let registry := (BinaryConfigParserRegistry.instance statics).1
  (BinaryConfigParserHelper.mk, ⟨some (registry.registerParser arch_id func)⟩)

/-- Register a list of `(id, parser)` pairs one after the other, first pair first. -/
def registerAll
    (registrations : List
      (ArchId × BinaryConfigParserFunction BinaryReader ModelMetadata ModelConfig ε σ))
    (registry : BinaryConfigParserRegistry BinaryReader ModelMetadata ModelConfig ε σ) :
    BinaryConfigParserRegistry BinaryReader ModelMetadata ModelConfig ε σ :=
  registrations.foldl (fun r c => r.registerParser c.1 c.2) registry

/-- A call of one of the three public member functions, with its arguments. A `parse` call
comes in two forms: `parse`, when the parser it invokes leaves the registry alone, and
`parseReentrant`, when the invoked parser calls `instance().registerParser(id, func)` on this
registry while it runs, once for each pair of `registers`, in that order. -/
inductive Call (BinaryReader ModelMetadata ModelConfig ε σ : Type) where
  | registerParser (arch_id : ArchId)
      (func : BinaryConfigParserFunction BinaryReader ModelMetadata ModelConfig ε σ)
  | has (arch_id : ArchId)
  | parse (arch_id : ArchId) (reader : BinaryReader) (weights : Nat) (weight_count : Nat)
      (meta : ModelMetadata)
  | parseReentrant (arch_id : ArchId) (reader : BinaryReader) (weights : Nat)
      (weight_count : Nat) (meta : ModelMetadata)
      (registers : List
        (ArchId × BinaryConfigParserFunction BinaryReader ModelMetadata ModelConfig ε σ))

/-- Perform one call on a registry object and the ambient state. `registerParser` is the only
non-`const` member, so of the registry's own code it alone writes the map; `has` touches
nothing; `parse` writes nothing itself and leaves the ambient state as the invoked parser (if
any) leaves it. In a `parseReentrant` call the invoked parser makes its registrations; when the
lookup finds no parser, none runs and none are made. -/
def Call.exec (c : Call BinaryReader ModelMetadata ModelConfig ε σ)
    (s : BinaryConfigParserRegistry BinaryReader ModelMetadata ModelConfig ε σ × σ) :
    BinaryConfigParserRegistry BinaryReader ModelMetadata ModelConfig ε σ × σ :=
  match c with
  | Call.registerParser arch_id func => (s.1.registerParser arch_id func, s.2)
  | Call.has _ => s
  | Call.parse arch_id reader weights weight_count meta =>
    (s.1, (s.1.parse arch_id reader weights weight_count meta s.2).env)
  | Call.parseReentrant arch_id reader weights weight_count meta registers =>
    (match s.1.parsers_.lookup arch_id with
      | none => s.1
      | some _ => registerAll registers s.1,
      (s.1.parse arch_id reader weights weight_count meta s.2).env)

/-- Perform a finite sequence of calls, first call first. -/
def runCalls (calls : List (Call BinaryReader ModelMetadata ModelConfig ε σ))
    (s : BinaryConfigParserRegistry BinaryReader ModelMetadata ModelConfig ε σ × σ) :
    BinaryConfigParserRegistry BinaryReader ModelMetadata ModelConfig ε σ × σ :=
  calls.foldl (fun t c => c.exec t) s

/-- A call of a `const` member (`has` or `parse`) during which no registration is made, as
opposed to a registration and to a `parse` whose parser registers. -/
def Call.isQuery (c : Call BinaryReader ModelMetadata ModelConfig ε σ) : Bool :=
  match c with
  | Call.registerParser _ _ => false
  | Call.has _ => true
  | Call.parse _ _ _ _ _ => true
  | Call.parseReentrant _ _ _ _ _ _ => false

/-- The statements `weights += k; weight_count -= k;` by which a parser claims `k` values of the
weight view; the subtraction is `size_t` arithmetic. The pair is (start, count). -/
def consume (k : Nat) (view : Nat × Nat) : Nat × Nat :=
  (view.1 + k, (view.2 + SIZE_MODULUS - k % SIZE_MODULUS) % SIZE_MODULUS)

/-- A parser consumes `k` elements on a given call when the view it leaves is the view it was
given with `k` values claimed. -/
def Consumes (func : BinaryConfigParserFunction BinaryReader ModelMetadata ModelConfig ε σ)
    (k : Nat) (reader : BinaryReader) (weights : Nat) (weight_count : Nat)
    (meta : ModelMetadata) (env : σ) : Prop :=
  ((func reader weights weight_count meta env).weights,
    (func reader weights weight_count meta env).weight_count) =
      consume k (weights, weight_count)

/-- The view `(weights', weight_count')` references a suffix of the view
`(weights, weight_count)`. -/
def IsSuffixView (weights weight_count weights' weight_count' : Nat) : Prop :=
  ∃ j, j ≤ weight_count ∧ weights' = weights + j ∧ weight_count' = weight_count - j

/-- The arguments of one parser call, as a recording test parser stores them. -/
structure CallRecord (BinaryReader ModelMetadata : Type) where
  reader : BinaryReader
  weights : Nat
  weight_count : Nat
  meta : ModelMetadata
  deriving DecidableEq, Repr

/-- The exception, if any, that leaves a call. The bodies of `registerParser` (one assignment
into the map) and of `has` contain no `throw` and call no parser; `parse` throws its own error or
lets the parser's exception through. -/
def Call.failure (c : Call BinaryReader ModelMetadata ModelConfig ε σ)
    (s : BinaryConfigParserRegistry BinaryReader ModelMetadata ModelConfig ε σ × σ) :
    Option (Thrown ε) :=
  match c with
  | Call.registerParser _ _ => none
  | Call.has _ => none
  | Call.parse arch_id reader weights weight_count meta =>
    match (s.1.parse arch_id reader weights weight_count meta s.2).outcome with
    | Outcome.thrown e => some e
    | Outcome.returned _ => none
  | Call.parseReentrant arch_id reader weights weight_count meta _ =>
    match (s.1.parse arch_id reader weights weight_count meta s.2).outcome with
    | Outcome.thrown e => some e
    | Outcome.returned _ => none

/-- The `what()` text of the `std::runtime_error` a call ended with, if it ended with one. -/
def Outcome.what (outcome : Outcome ModelConfig ε) : Option String :=
  match outcome with
  | Outcome.thrown (Thrown.runtime_error what) => some what
  | _ => none

/-- A test parser that records its inputs: it appends the arguments it was called with to a log
kept in the ambient state, then behaves as `func`. -/
def recording (func : BinaryConfigParserFunction BinaryReader ModelMetadata ModelConfig ε σ) :
    BinaryConfigParserFunction BinaryReader ModelMetadata ModelConfig ε
      (List (CallRecord BinaryReader ModelMetadata) × σ) :=
  fun reader weights weight_count meta env =>
    let r := func reader weights weight_count meta env.2
    ⟨r.outcome, r.reader, r.weights, r.weight_count,
      (env.1 ++ [⟨reader, weights, weight_count, meta⟩], r.env)⟩

end Registry

/-! ## The base-10 text of an id, stated independently of `to_string` -/

/-- The character of one decimal digit `d < 10`: `'0'` has code 48. -/
def digitChar (d : Nat) : Char :=
  Char.ofNat (48 + d % 10)

/-- The base-10 representation of a number below 1000, most significant digit first, without
leading zeros (`0` is written `0`). -/
def decimalText (n : Nat) : String :=
  if n < 10 then String.mk [digitChar n]
  else if n < 100 then String.mk [digitChar (n / 10), digitChar n]
  else String.mk [digitChar (n / 100), digitChar (n / 10), digitChar n]

/-- The value of a character read as a decimal digit, if it is one. -/
def digitValue (c : Char) : Option Nat :=
  if 48 ≤ c.toNat ∧ c.toNat ≤ 57 then some (c.toNat - 48) else none

/-- The number a non-empty list of decimal digits denotes (`acc` is the value of the digits
already read); `none` when a character is not a digit. -/
def decimalValue (acc : Nat) (digits : List Char) : Option Nat :=
  match digits with
  | [] => some acc
  | c :: rest =>
    match digitValue c with
    | none => none
    | some d => decimalValue (10 * acc + d) rest

/-- Recover the id from the text of an unknown-architecture error: the text must start with
`NAMB: unknown architecture ID ` (30 characters) and go on with one to three decimal digits that
denote a number below 256. -/
def recover_arch_id (what : String) : Option ArchId :=
  if what.data.take 30 = "NAMB: unknown architecture ID ".data ∧ what.data.drop 30 ≠ [] then
    match decimalValue 0 (what.data.drop 30) with
    | some n => if h : n < 256 then some ⟨n, h⟩ else none
    | none => none
  else none

/-! ## Test doubles used by the concrete scenarios -/

/-- A cursor over a byte buffer: the bytes and the read position. -/
structure TestReader where
  data : List Nat
  pos : Nat
  deriving DecidableEq, Repr

/-- A metadata record. -/
structure TestMetadata where
  version : Nat
  sample_rate : Nat
  deriving DecidableEq, Repr

/-- A configuration object holding one integer field. -/
structure TestConfig where
  field : Nat
  deriving DecidableEq, Repr

/-- Read one little-endian unsigned 32-bit integer at the cursor, advancing it by four bytes;
`none` when fewer than four bytes remain. -/
def TestReader.read_u32 (reader : TestReader) : Option (Nat × TestReader) :=
  match reader.data.drop reader.pos with
  | b0 :: b1 :: b2 :: b3 :: _ =>
    some ((b0 % 256) + 256 * (b1 % 256) + 65536 * (b2 % 256) + 16777216 * (b3 % 256),
      ⟨reader.data, reader.pos + 4⟩)
  | _ => none

/-- The parser of the scenario: it reads one 32-bit integer field from the cursor and claims four
weight values. It throws when the field cannot be read (nothing changed) or, after the field was
read, when fewer than four weights remain (the cursor stays advanced). -/
def fourWeightParser :
    BinaryConfigParserFunction TestReader TestMetadata TestConfig Unit Unit :=
  fun reader weights weight_count _ env =>
    match reader.read_u32 with
    | none =>
      ⟨Outcome.thrown (Thrown.runtime_error "truncated payload"), reader, weights, weight_count,
        env⟩
    | some (value, reader') =>
      if weight_count < 4 then
        ⟨Outcome.thrown (Thrown.runtime_error "not enough weights"), reader', weights,
          weight_count, env⟩
      else
        ⟨Outcome.returned (some ⟨value⟩), reader', (consume 4 (weights, weight_count)).1,
          (consume 4 (weights, weight_count)).2, env⟩

/-- A parser that breaks the parser contract: it steps the start of the view back by one element
(the view is taken to start at least one element into the storage) and enlarges the count by one,
then returns a configuration object. -/
def rewindingParser :
    BinaryConfigParserFunction TestReader TestMetadata TestConfig Unit Unit :=
  fun reader weights weight_count _ env =>
    ⟨Outcome.returned (some ⟨0⟩), reader, weights - 1, (weight_count + 1) % SIZE_MODULUS, env⟩

/-- The registry type of the scenarios. -/
abbrev TestRegistry : Type :=
  BinaryConfigParserRegistry TestReader TestMetadata TestConfig Unit Unit

/-- The registry of the first scenario: only id `1` is registered, with `fourWeightParser`. -/
def scenarioRegistry : TestRegistry :=
  BinaryConfigParserRegistry.empty.registerParser 1 fourWeightParser

/-- A registry in which a contract-breaking parser is registered: id `2` is registered with `rewindingParser`. -/
def rewindingRegistry : TestRegistry :=
  BinaryConfigParserRegistry.empty.registerParser 2 rewindingParser

/-- A twelve-byte payload whose first field is the integer `42`. -/
def scenarioReader : TestReader :=
  ⟨[42, 0, 0, 0, 1, 2, 3, 4, 5, 6, 7, 8], 0⟩

/-- The metadata of the scenarios. -/
def scenarioMeta : TestMetadata :=
  ⟨1, 48000⟩

/-! ## Lookup lemmas -/

section Lemmas

variable {BinaryReader ModelMetadata ModelConfig ε σ : Type}

namespace BinaryConfigParserRegistry

theorem lookup_empty (arch_id : ArchId) :
    (empty : BinaryConfigParserRegistry BinaryReader ModelMetadata ModelConfig ε σ).parsers_.lookup
      arch_id = none :=
  AList.lookup_empty arch_id

theorem lookup_registerParser_self
    (self : BinaryConfigParserRegistry BinaryReader ModelMetadata ModelConfig ε σ)
    (arch_id : ArchId)
    (func : BinaryConfigParserFunction BinaryReader ModelMetadata ModelConfig ε σ) :
    (self.registerParser arch_id func).parsers_.lookup arch_id = some func :=
  AList.lookup_insert self.parsers_

theorem lookup_registerParser_ne
    (self : BinaryConfigParserRegistry BinaryReader ModelMetadata ModelConfig ε σ)
    {arch_id other : ArchId} (h : other ≠ arch_id)
    (func : BinaryConfigParserFunction BinaryReader ModelMetadata ModelConfig ε σ) :
    (self.registerParser arch_id func).parsers_.lookup other = self.parsers_.lookup other :=
  AList.lookup_insert_ne h

theorem has_eq_isSome
    (self : BinaryConfigParserRegistry BinaryReader ModelMetadata ModelConfig ε σ)
    (arch_id : ArchId) : self.has arch_id = (self.parsers_.lookup arch_id).isSome :=
  rfl

theorem has_eq_false_iff
    (self : BinaryConfigParserRegistry BinaryReader ModelMetadata ModelConfig ε σ)
    (arch_id : ArchId) : self.has arch_id = false ↔ self.parsers_.lookup arch_id = none := by
  unfold has
  cases self.parsers_.lookup arch_id <;> simp

theorem has_eq_true_iff
    (self : BinaryConfigParserRegistry BinaryReader ModelMetadata ModelConfig ε σ)
    (arch_id : ArchId) :
    self.has arch_id = true ↔ ∃ func, self.parsers_.lookup arch_id = some func := by
  unfold has
  cases self.parsers_.lookup arch_id with
  | none => exact ⟨fun h => Bool.noConfusion h, fun ⟨_, h⟩ => Option.noConfusion h⟩
  | some func => exact ⟨fun _ => ⟨func, rfl⟩, fun _ => rfl⟩

theorem parse_of_lookup_none
    (self : BinaryConfigParserRegistry BinaryReader ModelMetadata ModelConfig ε σ)
    {arch_id : ArchId} (h : self.parsers_.lookup arch_id = none)
    (reader : BinaryReader) (weights weight_count : Nat) (meta : ModelMetadata) (env : σ) :
    self.parse arch_id reader weights weight_count meta env =
      ⟨Outcome.thrown
          (Thrown.runtime_error ("NAMB: unknown architecture ID " ++ to_string arch_id)),
        reader, weights, weight_count, env⟩ := by
  unfold parse
  rw [h]

theorem parse_of_lookup_some
    (self : BinaryConfigParserRegistry BinaryReader ModelMetadata ModelConfig ε σ)
    {arch_id : ArchId}
    {func : BinaryConfigParserFunction BinaryReader ModelMetadata ModelConfig ε σ}
    (h : self.parsers_.lookup arch_id = some func)
    (reader : BinaryReader) (weights weight_count : Nat) (meta : ModelMetadata) (env : σ) :
    self.parse arch_id reader weights weight_count meta env =
      func reader weights weight_count meta env := by
  unfold parse
  rw [h]

end BinaryConfigParserRegistry

theorem lookup_registerAll_of_not_used
    (registrations : List
      (ArchId × BinaryConfigParserFunction BinaryReader ModelMetadata ModelConfig ε σ))
    (registry : BinaryConfigParserRegistry BinaryReader ModelMetadata ModelConfig ε σ)
    (arch_id : ArchId) (h : ∀ c ∈ registrations, c.1 ≠ arch_id) :
    (registerAll registrations registry).parsers_.lookup arch_id =
      registry.parsers_.lookup arch_id := by
  induction registrations generalizing registry with
  | nil => rfl
  | cons c rest ih =>
    have hc : arch_id ≠ c.1 := fun e => h c (List.mem_cons_self c rest) e.symm
    have hrest : ∀ d ∈ rest, d.1 ≠ arch_id := fun d hd => h d (List.mem_cons_of_mem c hd)
    show (registerAll rest (registry.registerParser c.1 c.2)).parsers_.lookup arch_id = _
    rw [ih (registry.registerParser c.1 c.2) hrest]
    exact BinaryConfigParserRegistry.lookup_registerParser_ne registry hc c.2

theorem runCalls_cons (c : Call BinaryReader ModelMetadata ModelConfig ε σ)
    (calls : List (Call BinaryReader ModelMetadata ModelConfig ε σ))
    (s : BinaryConfigParserRegistry BinaryReader ModelMetadata ModelConfig ε σ × σ) :
    runCalls (c :: calls) s = runCalls calls (c.exec s) :=
  rfl

theorem exec_query_registry (c : Call BinaryReader ModelMetadata ModelConfig ε σ)
    (hc : c.isQuery = true)
    (s : BinaryConfigParserRegistry BinaryReader ModelMetadata ModelConfig ε σ × σ) :
    (c.exec s).1 = s.1 := by
  cases c with
  | registerParser arch_id func => exact Bool.noConfusion hc
  | has arch_id => rfl
  | parse arch_id reader weights weight_count meta => rfl
  | parseReentrant arch_id reader weights weight_count meta registers =>
    exact Bool.noConfusion hc

theorem runCalls_queries_registry
    (calls : List (Call BinaryReader ModelMetadata ModelConfig ε σ))
    (h : ∀ c ∈ calls, c.isQuery = true)
    (s : BinaryConfigParserRegistry BinaryReader ModelMetadata ModelConfig ε σ × σ) :
    (runCalls calls s).1 = s.1 := by
  induction calls generalizing s with
  | nil => rfl
  | cons c rest ih =>
    rw [runCalls_cons, ih (fun d hd => h d (List.mem_cons_of_mem c hd)) (c.exec s)]
    exact exec_query_registry c (h c (List.mem_cons_self c rest)) s

theorem runCalls_filter_isQuery_registry
    (calls : List (Call BinaryReader ModelMetadata ModelConfig ε σ))
    (s : BinaryConfigParserRegistry BinaryReader ModelMetadata ModelConfig ε σ × σ) :
    (runCalls (calls.filter Call.isQuery) s).1 = s.1 :=
  runCalls_queries_registry _ (fun _ hc => (List.mem_filter.1 hc).2) s

theorem consume_of_le (k n weights : Nat) (hk : k ≤ n) (hn : n < SIZE_MODULUS) :
    consume k (weights, n) = (weights + k, n - k) := by
  unfold consume
  have hkm : k % SIZE_MODULUS = k := Nat.mod_eq_of_lt (Nat.lt_of_le_of_lt hk hn)
  have hsum : n + SIZE_MODULUS - k = (n - k) + SIZE_MODULUS := by omega
  have hlt : n - k < SIZE_MODULUS := Nat.lt_of_le_of_lt (Nat.sub_le n k) hn
  show (weights + k, (n + SIZE_MODULUS - k % SIZE_MODULUS) % SIZE_MODULUS) = _
  rw [hkm, hsum, Nat.add_mod_right, Nat.mod_eq_of_lt hlt]

theorem entries_length_registerParser
    (self : BinaryConfigParserRegistry BinaryReader ModelMetadata ModelConfig ε σ)
    (arch_id : ArchId)
    (func : BinaryConfigParserFunction BinaryReader ModelMetadata ModelConfig ε σ) :
    (self.registerParser arch_id func).parsers_.entries.length =
      if self.has arch_id = true then self.parsers_.entries.length
      else self.parsers_.entries.length + 1 := by
  show (self.parsers_.insert arch_id func).entries.length = _
  by_cases hh : self.has arch_id = true
  · rw [if_pos hh]
    have hmem : arch_id ∈ self.parsers_.keys :=
      AList.mem_keys.1 (AList.lookup_isSome.1 hh)
    have hk : ∀ t : AList (fun _ : ArchId =>
        BinaryConfigParserFunction BinaryReader ModelMetadata ModelConfig ε σ),
        t.entries.length = t.keys.length := fun t => (List.length_map _ _).symm
    have hpos : 0 < self.parsers_.keys.length := List.length_pos_of_mem hmem
    rw [hk, hk, AList.keys_insert, List.length_cons, List.length_erase_of_mem hmem]
    omega
  · rw [if_neg hh]
    have hnone : self.parsers_.lookup arch_id = none :=
      (BinaryConfigParserRegistry.has_eq_false_iff self arch_id).1 (by simpa using hh)
    rw [AList.insert_entries_of_neg (AList.lookup_eq_none.1 hnone), List.length_cons]

theorem lookup_registerParser_swap
    (self : BinaryConfigParserRegistry BinaryReader ModelMetadata ModelConfig ε σ)
    {i j : ArchId} (hij : i ≠ j)
    (P Q : BinaryConfigParserFunction BinaryReader ModelMetadata ModelConfig ε σ)
    (other : ArchId) :
    ((self.registerParser i P).registerParser j Q).parsers_.lookup other =
      ((self.registerParser j Q).registerParser i P).parsers_.lookup other := by
  by_cases hi : other = i
  · subst hi
    rw [BinaryConfigParserRegistry.lookup_registerParser_ne _ hij,
      BinaryConfigParserRegistry.lookup_registerParser_self,
      BinaryConfigParserRegistry.lookup_registerParser_self]
  · by_cases hj : other = j
    · subst hj
      rw [BinaryConfigParserRegistry.lookup_registerParser_self,
        BinaryConfigParserRegistry.lookup_registerParser_ne _ hi,
        BinaryConfigParserRegistry.lookup_registerParser_self]
    · rw [BinaryConfigParserRegistry.lookup_registerParser_ne _ hj,
        BinaryConfigParserRegistry.lookup_registerParser_ne _ hi,
        BinaryConfigParserRegistry.lookup_registerParser_ne _ hi,
        BinaryConfigParserRegistry.lookup_registerParser_ne _ hj]

theorem has_congr_lookup
    (a b : BinaryConfigParserRegistry BinaryReader ModelMetadata ModelConfig ε σ)
    (arch_id : ArchId) (h : a.parsers_.lookup arch_id = b.parsers_.lookup arch_id) :
    a.has arch_id = b.has arch_id := by
  unfold BinaryConfigParserRegistry.has
  rw [h]

theorem parse_congr_lookup
    (a b : BinaryConfigParserRegistry BinaryReader ModelMetadata ModelConfig ε σ)
    (arch_id : ArchId) (h : a.parsers_.lookup arch_id = b.parsers_.lookup arch_id)
    (reader : BinaryReader) (weights weight_count : Nat) (meta : ModelMetadata) (env : σ) :
    a.parse arch_id reader weights weight_count meta env =
      b.parse arch_id reader weights weight_count meta env := by
  unfold BinaryConfigParserRegistry.parse
  rw [h]

theorem string_append_left_cancel (a b c : String) (h : a ++ b = a ++ c) : b = c := by
  have hd := congrArg String.data h
  rw [String.data_append, String.data_append] at hd
  exact String.ext (List.append_cancel_left hd)

set_option maxRecDepth 100000 in
theorem to_string_eq_decimalText :
    ∀ arch_id : ArchId, to_string arch_id = decimalText arch_id.val := by
  decide

set_option maxRecDepth 100000 in
theorem recover_arch_id_message :
    ∀ arch_id : ArchId,
      recover_arch_id ("NAMB: unknown architecture ID " ++ to_string arch_id) = some arch_id := by
  decide

set_option maxRecDepth 100000 in
theorem to_string_ne_byte_character :
    ∀ arch_id : ArchId, to_string arch_id ≠ String.singleton (Char.ofNat arch_id.val) := by
  decide

end Lemmas

/-! ## Properties of registration, lookup and dispatch -/

section Properties

variable {BinaryReader ModelMetadata ModelConfig ε σ : Type}

/-- C1. For every architecture id and every registry reached from the freshly constructed (empty)
registry by a finite sequence of `registerParser` calls none of which uses that id, `has(id)` is
false and `parse(id, ...)` throws the registry's own `std::runtime_error` "unknown architecture"
for that id, for every reader, weight view, metadata and ambient state. No registered parser is
invoked: the reader, the view and the ambient state (in which any parser could leave a trace) come
back exactly as they were passed. -/
theorem C1_unregistered_id_is_unknown
    (arch_id : ArchId)
    (registrations : List
      (ArchId × BinaryConfigParserFunction BinaryReader ModelMetadata ModelConfig ε σ))
    (h : ∀ c ∈ registrations, c.1 ≠ arch_id) :
    (registerAll registrations BinaryConfigParserRegistry.empty).has arch_id = false ∧
    ∀ (reader : BinaryReader) (weights weight_count : Nat) (meta : ModelMetadata) (env : σ),
      (registerAll registrations BinaryConfigParserRegistry.empty).parse arch_id reader weights
          weight_count meta env =
        ⟨Outcome.thrown
            (Thrown.runtime_error ("NAMB: unknown architecture ID " ++ to_string arch_id)),
          reader, weights, weight_count, env⟩ := by
  have hl : (registerAll registrations BinaryConfigParserRegistry.empty).parsers_.lookup arch_id
      = none := by
    rw [lookup_registerAll_of_not_used registrations _ arch_id h]
    exact BinaryConfigParserRegistry.lookup_empty arch_id
  refine ⟨(BinaryConfigParserRegistry.has_eq_false_iff _ arch_id).2 hl, ?_⟩
  intro reader weights weight_count meta env
  exact BinaryConfigParserRegistry.parse_of_lookup_none _ hl reader weights weight_count meta env

/-- C2. After `registerParser(id, P)`, `has(id)` is true and `parse(id, reader, weights,
weight_count, meta)` is exactly one call of `P` on the given reader, weight view and metadata: it
yields what `P` yields (the same returned configuration object or thrown exception, the same
resulting reader, view and ambient state). With a test parser that records its inputs, the log
grows by exactly one record, holding exactly the given arguments. -/
theorem C2_registered_parser_is_invoked
    (self : BinaryConfigParserRegistry BinaryReader ModelMetadata ModelConfig ε σ)
    (logged : BinaryConfigParserRegistry BinaryReader ModelMetadata ModelConfig ε
      (List (CallRecord BinaryReader ModelMetadata) × σ))
    (arch_id : ArchId)
    (P : BinaryConfigParserFunction BinaryReader ModelMetadata ModelConfig ε σ) :
    (self.registerParser arch_id P).has arch_id = true ∧
    (∀ (reader : BinaryReader) (weights weight_count : Nat) (meta : ModelMetadata) (env : σ),
      (self.registerParser arch_id P).parse arch_id reader weights weight_count meta env =
        P reader weights weight_count meta env) ∧
    (∀ (reader : BinaryReader) (weights weight_count : Nat) (meta : ModelMetadata)
        (log : List (CallRecord BinaryReader ModelMetadata)) (env : σ),
      ((logged.registerParser arch_id (recording P)).parse arch_id reader weights weight_count
          meta (log, env)).env.1 = log ++ [⟨reader, weights, weight_count, meta⟩]) := by
  refine ⟨?_, ?_, ?_⟩
  · exact (BinaryConfigParserRegistry.has_eq_true_iff _ arch_id).2
      ⟨P, BinaryConfigParserRegistry.lookup_registerParser_self self arch_id P⟩
  · intro reader weights weight_count meta env
    exact BinaryConfigParserRegistry.parse_of_lookup_some _
      (BinaryConfigParserRegistry.lookup_registerParser_self self arch_id P) reader weights
      weight_count meta env
  · intro reader weights weight_count meta log env
    rw [BinaryConfigParserRegistry.parse_of_lookup_some _
      (BinaryConfigParserRegistry.lookup_registerParser_self logged arch_id (recording P))]
    rfl

/-- C3. Last registration wins. After `registerParser(id, P)` followed by
`registerParser(id, P2)`: the registry is the very one that registering `P2` alone would have
given (`P` has left no trace in it), so every `parse(id, ...)` is a call of `P2`, also after any
number of intervening `has` and `parse` calls during which no registration is made (the calls
of any list of calls that `Call.isQuery` keeps); the map holds exactly one entry for `id`; and
the ids for which `has` is true, and the number of entries, are the same as after the first
registration. -/
theorem C3_last_registration_wins
    (self : BinaryConfigParserRegistry BinaryReader ModelMetadata ModelConfig ε σ)
    (arch_id : ArchId)
    (P P2 : BinaryConfigParserFunction BinaryReader ModelMetadata ModelConfig ε σ) :
    (self.registerParser arch_id P).registerParser arch_id P2 =
      self.registerParser arch_id P2 ∧
    (∀ (reader : BinaryReader) (weights weight_count : Nat) (meta : ModelMetadata) (env : σ),
      ((self.registerParser arch_id P).registerParser arch_id P2).parse arch_id reader weights
          weight_count meta env = P2 reader weights weight_count meta env) ∧
    (∀ (calls : List (Call BinaryReader ModelMetadata ModelConfig ε σ)) (env₀ : σ)
        (reader : BinaryReader) (weights weight_count : Nat) (meta : ModelMetadata) (env : σ),
      (runCalls (calls.filter Call.isQuery)
          ((self.registerParser arch_id P).registerParser arch_id P2, env₀)).1.parse arch_id
          reader weights weight_count meta env = P2 reader weights weight_count meta env) ∧
    ((self.registerParser arch_id P).registerParser arch_id P2).parsers_.keys.count arch_id
      = 1 ∧
    (∀ other : ArchId,
      ((self.registerParser arch_id P).registerParser arch_id P2).has other =
        (self.registerParser arch_id P).has other) ∧
    ((self.registerParser arch_id P).registerParser arch_id P2).parsers_.entries.length =
      (self.registerParser arch_id P).parsers_.entries.length := by
  have heq : (self.registerParser arch_id P).registerParser arch_id P2 =
      self.registerParser arch_id P2 :=
    congrArg BinaryConfigParserRegistry.mk (AList.insert_insert self.parsers_)
  have hparse : ∀ (reader : BinaryReader) (weights weight_count : Nat) (meta : ModelMetadata)
      (env : σ),
      ((self.registerParser arch_id P).registerParser arch_id P2).parse arch_id reader weights
          weight_count meta env = P2 reader weights weight_count meta env :=
    fun reader weights weight_count meta env =>
      BinaryConfigParserRegistry.parse_of_lookup_some _
        (BinaryConfigParserRegistry.lookup_registerParser_self _ arch_id P2) reader weights
        weight_count meta env
  refine ⟨heq, hparse, ?_, ?_, ?_, ?_⟩
  · intro calls env₀ reader weights weight_count meta env
    rw [runCalls_filter_isQuery_registry calls]
    exact hparse reader weights weight_count meta env
  · apply List.count_eq_one_of_mem (AList.keys_nodup _)
    exact AList.mem_keys.1 ((AList.mem_insert _).2 (Or.inl rfl))
  · intro other
    rw [BinaryConfigParserRegistry.has_eq_isSome, BinaryConfigParserRegistry.has_eq_isSome]
    by_cases ho : other = arch_id
    · subst ho
      rw [BinaryConfigParserRegistry.lookup_registerParser_self,
        BinaryConfigParserRegistry.lookup_registerParser_self]
      rfl
    · rw [BinaryConfigParserRegistry.lookup_registerParser_ne _ ho]
  · show ((self.parsers_.insert arch_id P).insert arch_id P2).entries.length =
      (self.parsers_.insert arch_id P).entries.length
    have hk : ∀ t : AList (fun _ : ArchId =>
        BinaryConfigParserFunction BinaryReader ModelMetadata ModelConfig ε σ),
        t.entries.length = t.keys.length := fun t => (List.length_map _ _).symm
    rw [hk, hk, AList.keys_insert, AList.keys_insert, List.length_cons, List.length_cons,
      List.erase_cons_head]

/-- C4. When `id` is registered with parser `P` and `P` throws on the given input, `parse(id,
...)` ends exactly as that call of `P` ends: the exception is the very value `P` threw (the lookup
succeeded, so the registry's own unknown-architecture throw is not reached, and nothing is wrapped
around `P`'s exception), no configuration object is returned, and the reader, the start and count
of the weight view and the ambient state are as `P` left them: no rollback, no further change. -/
theorem C4_parser_failure_propagates
    (self : BinaryConfigParserRegistry BinaryReader ModelMetadata ModelConfig ε σ)
    (arch_id : ArchId)
    (P : BinaryConfigParserFunction BinaryReader ModelMetadata ModelConfig ε σ)
    (hreg : self.parsers_.lookup arch_id = some P)
    (reader : BinaryReader) (weights weight_count : Nat) (meta : ModelMetadata) (env : σ)
    (e : Thrown ε)
    (hfail : (P reader weights weight_count meta env).outcome = Outcome.thrown e) :
    self.has arch_id = true ∧
    self.parse arch_id reader weights weight_count meta env =
      P reader weights weight_count meta env ∧
    (self.parse arch_id reader weights weight_count meta env).outcome = Outcome.thrown e ∧
    (∀ config : Option ModelConfig,
      (self.parse arch_id reader weights weight_count meta env).outcome ≠
        Outcome.returned config) ∧
    (self.parse arch_id reader weights weight_count meta env).reader =
      (P reader weights weight_count meta env).reader ∧
    (self.parse arch_id reader weights weight_count meta env).weights =
      (P reader weights weight_count meta env).weights ∧
    (self.parse arch_id reader weights weight_count meta env).weight_count =
      (P reader weights weight_count meta env).weight_count := by
  have hp := BinaryConfigParserRegistry.parse_of_lookup_some self hreg reader weights
    weight_count meta env
  refine ⟨(BinaryConfigParserRegistry.has_eq_true_iff self arch_id).2 ⟨P, hreg⟩, hp, ?_, ?_, ?_,
    ?_, ?_⟩
  · rw [hp, hfail]
  · intro config hc
    rw [hp, hfail] at hc
    exact Outcome.noConfusion hc
  · rw [hp]
  · rw [hp]
  · rw [hp]

/-- C5. When no parser is registered for `id`, `parse(id, ...)` throws and leaves the reader
(hence its position, and whatever else can be observed of it), the start of the weight view and
the weight count exactly as they were before the call. -/
theorem C5_unknown_failure_is_atomic
    (self : BinaryConfigParserRegistry BinaryReader ModelMetadata ModelConfig ε σ)
    (arch_id : ArchId) (hno : self.has arch_id = false)
    (reader : BinaryReader) (weights weight_count : Nat) (meta : ModelMetadata) (env : σ) :
    (∃ e, (self.parse arch_id reader weights weight_count meta env).outcome =
      Outcome.thrown e) ∧
    (self.parse arch_id reader weights weight_count meta env).reader = reader ∧
    (∀ position : BinaryReader → Nat,
      position (self.parse arch_id reader weights weight_count meta env).reader =
        position reader) ∧
    (self.parse arch_id reader weights weight_count meta env).weights = weights ∧
    (self.parse arch_id reader weights weight_count meta env).weight_count = weight_count := by
  rw [BinaryConfigParserRegistry.parse_of_lookup_none self
    ((BinaryConfigParserRegistry.has_eq_false_iff self arch_id).1 hno) reader weights
    weight_count meta env]
  exact ⟨⟨_, rfl⟩, rfl, fun _ => rfl, rfl, rfl⟩

/-- C6. If the parser registered under `id` consumes `k` elements of a weight view of length `n`,
with `k <= n`, then when `parse(id, reader, weights, weight_count, meta)` ends the caller's view
has length `n - k` and its start is advanced by `k` elements. -/
theorem C6_consumed_prefix_is_visible
    (self : BinaryConfigParserRegistry BinaryReader ModelMetadata ModelConfig ε σ)
    (arch_id : ArchId)
    (P : BinaryConfigParserFunction BinaryReader ModelMetadata ModelConfig ε σ)
    (hreg : self.parsers_.lookup arch_id = some P)
    (n k : Nat) (hk : k ≤ n) (hn : n < SIZE_MODULUS)
    (reader : BinaryReader) (weights : Nat) (meta : ModelMetadata) (env : σ)
    (hP : Consumes P k reader weights n meta env) :
    (self.parse arch_id reader weights n meta env).weight_count = n - k ∧
    (self.parse arch_id reader weights n meta env).weights = weights + k := by
  rw [BinaryConfigParserRegistry.parse_of_lookup_some self hreg reader weights n meta env]
  unfold Consumes at hP
  rw [consume_of_le k n weights hk hn] at hP
  exact ⟨congrArg Prod.snd hP, congrArg Prod.fst hP⟩

/-- C7, as amended. For every registered parser and every `parse` call, the weight view after
the call is exactly the view the parser left: the registry neither checks nor changes it. So the
view after `parse` is a suffix of the view before the call (start advanced by some
`j <= count`, count reduced by `j`) exactly when the parser itself, on that call, leaves such a
suffix of the view it was given. -/
theorem C7_suffix_view_when_parser_keeps_it
    (self : BinaryConfigParserRegistry BinaryReader ModelMetadata ModelConfig ε σ)
    (arch_id : ArchId)
    (P : BinaryConfigParserFunction BinaryReader ModelMetadata ModelConfig ε σ)
    (hreg : self.parsers_.lookup arch_id = some P)
    (reader : BinaryReader) (weights weight_count : Nat) (meta : ModelMetadata) (env : σ) :
    (self.parse arch_id reader weights weight_count meta env).weights =
      (P reader weights weight_count meta env).weights ∧
    (self.parse arch_id reader weights weight_count meta env).weight_count =
      (P reader weights weight_count meta env).weight_count ∧
    (IsSuffixView weights weight_count
        (P reader weights weight_count meta env).weights
        (P reader weights weight_count meta env).weight_count →
      IsSuffixView weights weight_count
        (self.parse arch_id reader weights weight_count meta env).weights
        (self.parse arch_id reader weights weight_count meta env).weight_count) ∧
    (IsSuffixView weights weight_count
        (self.parse arch_id reader weights weight_count meta env).weights
        (self.parse arch_id reader weights weight_count meta env).weight_count →
      IsSuffixView weights weight_count
        (P reader weights weight_count meta env).weights
        (P reader weights weight_count meta env).weight_count) := by
  rw [BinaryConfigParserRegistry.parse_of_lookup_some self hreg reader weights weight_count meta
    env]
  exact ⟨rfl, rfl, fun h => h, fun h => h⟩

/-- C8. Constructing `BinaryConfigParserHelper(id, P)` is `registerParser(id, P)` on the registry
`instance()` returns, of which there is one (a second `instance()` call returns the registry of
the first and changes nothing): the static registry afterwards is that registry with the
registration made; `instance()` then keeps returning it, changing nothing; on it `has(id)` is
true and
`parse(id, ...)` is a call of `P`; the entry of every other id is what it was; and the helper
value holds no state (any two helper values are equal). -/
theorem C8_helper_registers_in_instance
    (arch_id : ArchId)
    (P : BinaryConfigParserFunction BinaryReader ModelMetadata ModelConfig ε σ)
    (statics : Statics BinaryReader ModelMetadata ModelConfig ε σ) :
    BinaryConfigParserRegistry.instance (BinaryConfigParserRegistry.instance statics).2 =
      ((BinaryConfigParserRegistry.instance statics).1,
        (BinaryConfigParserRegistry.instance statics).2) ∧
    (BinaryConfigParserHelper.ctor arch_id P statics).2.registry =
      some ((BinaryConfigParserRegistry.instance statics).1.registerParser arch_id P) ∧
    BinaryConfigParserRegistry.instance (BinaryConfigParserHelper.ctor arch_id P statics).2 =
      ((BinaryConfigParserRegistry.instance statics).1.registerParser arch_id P,
        (BinaryConfigParserHelper.ctor arch_id P statics).2) ∧
    (BinaryConfigParserRegistry.instance
      (BinaryConfigParserHelper.ctor arch_id P statics).2).1.has arch_id = true ∧
    (∀ (reader : BinaryReader) (weights weight_count : Nat) (meta : ModelMetadata) (env : σ),
      (BinaryConfigParserRegistry.instance
        (BinaryConfigParserHelper.ctor arch_id P statics).2).1.parse arch_id reader weights
          weight_count meta env = P reader weights weight_count meta env) ∧
    (∀ other : ArchId,
      (BinaryConfigParserRegistry.instance
        (BinaryConfigParserHelper.ctor arch_id P statics).2).1.parsers_.lookup other =
        if other = arch_id then some P
        else (BinaryConfigParserRegistry.instance statics).1.parsers_.lookup other) ∧
    (∀ helper : BinaryConfigParserHelper,
      helper = (BinaryConfigParserHelper.ctor arch_id P statics).1) := by
  have hinst : BinaryConfigParserRegistry.instance
      (BinaryConfigParserHelper.ctor arch_id P statics).2 =
      ((BinaryConfigParserRegistry.instance statics).1.registerParser arch_id P,
        (BinaryConfigParserHelper.ctor arch_id P statics).2) := rfl
  refine ⟨?_, rfl, hinst, ?_, ?_, ?_, ?_⟩
  · cases statics with
    | mk registry =>
      cases registry with
      | none => rfl
      | some r => rfl
  · rw [hinst]
    exact (BinaryConfigParserRegistry.has_eq_true_iff _ arch_id).2
      ⟨P, BinaryConfigParserRegistry.lookup_registerParser_self _ arch_id P⟩
  · intro reader weights weight_count meta env
    rw [hinst]
    exact BinaryConfigParserRegistry.parse_of_lookup_some _
      (BinaryConfigParserRegistry.lookup_registerParser_self _ arch_id P) reader weights
      weight_count meta env
  · intro other
    rw [hinst]
    by_cases ho : other = arch_id
    · subst ho
      rw [if_pos rfl]
      exact BinaryConfigParserRegistry.lookup_registerParser_self _ other P
    · rw [if_neg ho]
      exact BinaryConfigParserRegistry.lookup_registerParser_ne _ ho P
  · intro helper
    cases helper
    rfl

/-- C11. `registerParser` never fails: for every registry, every id (`0..255`) and every parser,
the call ends without an exception and yields a registry in which `id` is registered with that
parser. When `id` had no entry one entry is added; when it already had one the entry is
overwritten and the number of entries stays the same: a duplicate registration is not an
error. -/
theorem C11_registerParser_never_fails
    (self : BinaryConfigParserRegistry BinaryReader ModelMetadata ModelConfig ε σ)
    (arch_id : ArchId)
    (func : BinaryConfigParserFunction BinaryReader ModelMetadata ModelConfig ε σ) (env : σ) :
    Call.failure (Call.registerParser arch_id func) (self, env) = none ∧
    Call.exec (Call.registerParser arch_id func) (self, env) =
      (self.registerParser arch_id func, env) ∧
    (self.registerParser arch_id func).has arch_id = true ∧
    (self.registerParser arch_id func).parsers_.lookup arch_id = some func ∧
    (self.registerParser arch_id func).parsers_.entries.length =
      (if self.has arch_id = true then self.parsers_.entries.length
       else self.parsers_.entries.length + 1) ∧
    Call.failure (Call.registerParser arch_id func)
      (Call.exec (Call.registerParser arch_id func) (self, env)) = none ∧
    ((self.registerParser arch_id func).registerParser arch_id func).parsers_.entries.length =
      (self.registerParser arch_id func).parsers_.entries.length := by
  have hhas : (self.registerParser arch_id func).has arch_id = true :=
    (BinaryConfigParserRegistry.has_eq_true_iff _ arch_id).2
      ⟨func, BinaryConfigParserRegistry.lookup_registerParser_self self arch_id func⟩
  refine ⟨rfl, rfl, hhas,
    BinaryConfigParserRegistry.lookup_registerParser_self self arch_id func,
    entries_length_registerParser self arch_id func, rfl, ?_⟩
  rw [entries_length_registerParser (self.registerParser arch_id func) arch_id func, if_pos hhas]

/-- C12. The unknown-architecture error carries the offending id as a decimal number: for every
id without an entry, `parse(id, ...)` throws a `std::runtime_error` whose text is exactly
`NAMB: unknown architecture ID ` followed by the base-10 representation of the id, which is never
the one-character text made of the byte itself; the id is recovered from the text, so two
unregistered ids with the same text are the same id. -/
theorem C12_unknown_error_carries_decimal_id
    (self : BinaryConfigParserRegistry BinaryReader ModelMetadata ModelConfig ε σ)
    (arch_id : ArchId) (hno : self.has arch_id = false)
    (reader : BinaryReader) (weights weight_count : Nat) (meta : ModelMetadata) (env : σ) :
    (self.parse arch_id reader weights weight_count meta env).outcome =
      Outcome.thrown
        (Thrown.runtime_error ("NAMB: unknown architecture ID " ++ decimalText arch_id.val)) ∧
    (self.parse arch_id reader weights weight_count meta env).outcome ≠
      Outcome.thrown
        (Thrown.runtime_error
          ("NAMB: unknown architecture ID " ++ String.singleton (Char.ofNat arch_id.val))) ∧
    (Outcome.what (self.parse arch_id reader weights weight_count meta env).outcome).bind
      recover_arch_id = some arch_id ∧
    (∀ (other : ArchId)
        (registry : BinaryConfigParserRegistry BinaryReader ModelMetadata ModelConfig ε σ)
        (reader' : BinaryReader) (weights' weight_count' : Nat) (meta' : ModelMetadata)
        (env' : σ),
      registry.has other = false →
      (registry.parse other reader' weights' weight_count' meta' env').outcome =
        (self.parse arch_id reader weights weight_count meta env).outcome →
      other = arch_id) := by
  have hp := BinaryConfigParserRegistry.parse_of_lookup_none self
    ((BinaryConfigParserRegistry.has_eq_false_iff self arch_id).1 hno) reader weights
    weight_count meta env
  have hout : (self.parse arch_id reader weights weight_count meta env).outcome =
      Outcome.thrown
        (Thrown.runtime_error ("NAMB: unknown architecture ID " ++ to_string arch_id)) := by
    rw [hp]
  refine ⟨?_, ?_, ?_, ?_⟩
  · rw [hout, to_string_eq_decimalText arch_id]
  · rw [hout]
    intro heq
    have hw : "NAMB: unknown architecture ID " ++ to_string arch_id =
        "NAMB: unknown architecture ID " ++ String.singleton (Char.ofNat arch_id.val) :=
      Thrown.runtime_error.inj (Outcome.thrown.inj heq)
    exact to_string_ne_byte_character arch_id (string_append_left_cancel _ _ _ hw)
  · rw [hout]
    exact recover_arch_id_message arch_id
  · intro other registry reader' weights' weight_count' meta' env' hother heq
    have hp' := BinaryConfigParserRegistry.parse_of_lookup_none registry
      ((BinaryConfigParserRegistry.has_eq_false_iff registry other).1 hother) reader' weights'
      weight_count' meta' env'
    rw [hout, hp'] at heq
    have hw : "NAMB: unknown architecture ID " ++ to_string other =
        "NAMB: unknown architecture ID " ++ to_string arch_id :=
      Thrown.runtime_error.inj (Outcome.thrown.inj heq)
    have hr := recover_arch_id_message other
    rw [hw, recover_arch_id_message arch_id] at hr
    exact (Option.some.inj hr).symm

/-- C13. Registration is local to its key: for distinct ids `i` and `j`, `registerParser(i, P)`
leaves the entry of `j` as it was, so `has(j)` is unchanged and `parse(j, ...)` is unchanged for
all arguments (the same parser is called, or the same unknown-architecture error is thrown). -/
theorem C13_registration_is_local
    (self : BinaryConfigParserRegistry BinaryReader ModelMetadata ModelConfig ε σ)
    (i j : ArchId) (hij : i ≠ j)
    (P : BinaryConfigParserFunction BinaryReader ModelMetadata ModelConfig ε σ) :
    (self.registerParser i P).parsers_.lookup j = self.parsers_.lookup j ∧
    (self.registerParser i P).has j = self.has j ∧
    (∀ (reader : BinaryReader) (weights weight_count : Nat) (meta : ModelMetadata) (env : σ),
      (self.registerParser i P).parse j reader weights weight_count meta env =
        self.parse j reader weights weight_count meta env) := by
  have hl := BinaryConfigParserRegistry.lookup_registerParser_ne self (Ne.symm hij) P
  exact ⟨hl, has_congr_lookup _ _ j hl,
    fun reader weights weight_count meta env =>
      parse_congr_lookup _ _ j hl reader weights weight_count meta env⟩

/-- C14. Registration order matters only per key. For distinct ids `i` and `j`,
`registerParser(i, P)` then `registerParser(j, Q)` and `registerParser(j, Q)` then
`registerParser(i, P)` give registries with the same `has` and `parse` results for every id and
all arguments (and the same number of entries); and registering the pair `(i, P)` twice in a row
gives the registry that registering it once gives. -/
theorem C14_registration_order_per_key
    (self : BinaryConfigParserRegistry BinaryReader ModelMetadata ModelConfig ε σ)
    (i j : ArchId)
    (P Q : BinaryConfigParserFunction BinaryReader ModelMetadata ModelConfig ε σ) :
    (i ≠ j →
      (∀ other : ArchId,
        ((self.registerParser i P).registerParser j Q).has other =
          ((self.registerParser j Q).registerParser i P).has other) ∧
      (∀ (other : ArchId) (reader : BinaryReader) (weights weight_count : Nat)
          (meta : ModelMetadata) (env : σ),
        ((self.registerParser i P).registerParser j Q).parse other reader weights weight_count
            meta env =
          ((self.registerParser j Q).registerParser i P).parse other reader weights
            weight_count meta env) ∧
      ((self.registerParser i P).registerParser j Q).parsers_.entries.length =
        ((self.registerParser j Q).registerParser i P).parsers_.entries.length) ∧
    (self.registerParser i P).registerParser i P = self.registerParser i P ∧
    (∀ other : ArchId,
      ((self.registerParser i P).registerParser i P).has other =
        (self.registerParser i P).has other) ∧
    (∀ (other : ArchId) (reader : BinaryReader) (weights weight_count : Nat)
        (meta : ModelMetadata) (env : σ),
      ((self.registerParser i P).registerParser i P).parse other reader weights weight_count
          meta env =
        (self.registerParser i P).parse other reader weights weight_count meta env) := by
  have hidem : (self.registerParser i P).registerParser i P = self.registerParser i P :=
    congrArg BinaryConfigParserRegistry.mk (AList.insert_insert self.parsers_)
  refine ⟨?_, hidem, fun other => by rw [hidem],
    fun other reader weights weight_count meta env => by rw [hidem]⟩
  intro hij
  refine ⟨fun other => has_congr_lookup _ _ other (lookup_registerParser_swap self hij P Q other),
    fun other reader weights weight_count meta env =>
      parse_congr_lookup _ _ other (lookup_registerParser_swap self hij P Q other) reader
        weights weight_count meta env, ?_⟩
  exact (AList.insert_insert_of_ne self.parsers_ hij).length_eq

end Properties

/-- Witness for C1: two registrations, under ids `1` and `2`, leave id `7` unknown. -/
theorem C1_unregistered_id_is_unknown_witness :
    (∀ c ∈ [((1 : ArchId), fourWeightParser), ((2 : ArchId), rewindingParser)],
        c.1 ≠ (7 : ArchId)) ∧
    (registerAll [((1 : ArchId), fourWeightParser), ((2 : ArchId), rewindingParser)]
        BinaryConfigParserRegistry.empty).has 7 = false ∧
    ∀ (reader : TestReader) (weights weight_count : Nat) (meta : TestMetadata) (env : Unit),
      (registerAll [((1 : ArchId), fourWeightParser), ((2 : ArchId), rewindingParser)]
          BinaryConfigParserRegistry.empty).parse 7 reader weights weight_count meta env =
        ⟨Outcome.thrown
            (Thrown.runtime_error ("NAMB: unknown architecture ID " ++ to_string 7)),
          reader, weights, weight_count, env⟩ :=
  ⟨by decide,
    C1_unregistered_id_is_unknown 7
      [((1 : ArchId), fourWeightParser), ((2 : ArchId), rewindingParser)] (by decide)⟩

/-- Witness for C4: with three weights left, the registered parser reads its integer field and
then throws; `parse` reports that exception, with the cursor advanced and the view untouched. -/
theorem C4_parser_failure_propagates_witness :
    scenarioRegistry.parsers_.lookup 1 = some fourWeightParser ∧
    (fourWeightParser scenarioReader 0 3 scenarioMeta ()).outcome =
      Outcome.thrown (Thrown.runtime_error "not enough weights") ∧
    (scenarioRegistry.has 1 = true ∧
     scenarioRegistry.parse 1 scenarioReader 0 3 scenarioMeta () =
       fourWeightParser scenarioReader 0 3 scenarioMeta () ∧
     (scenarioRegistry.parse 1 scenarioReader 0 3 scenarioMeta ()).outcome =
       Outcome.thrown (Thrown.runtime_error "not enough weights") ∧
     (∀ config : Option TestConfig,
       (scenarioRegistry.parse 1 scenarioReader 0 3 scenarioMeta ()).outcome ≠
         Outcome.returned config) ∧
     (scenarioRegistry.parse 1 scenarioReader 0 3 scenarioMeta ()).reader =
       (fourWeightParser scenarioReader 0 3 scenarioMeta ()).reader ∧
     (scenarioRegistry.parse 1 scenarioReader 0 3 scenarioMeta ()).weights =
       (fourWeightParser scenarioReader 0 3 scenarioMeta ()).weights ∧
     (scenarioRegistry.parse 1 scenarioReader 0 3 scenarioMeta ()).weight_count =
       (fourWeightParser scenarioReader 0 3 scenarioMeta ()).weight_count) ∧
    scenarioRegistry.parse 1 scenarioReader 0 3 scenarioMeta () =
      ⟨Outcome.thrown (Thrown.runtime_error "not enough weights"),
        ⟨scenarioReader.data, 4⟩, 0, 3, ()⟩ :=
  ⟨rfl, by decide,
    C4_parser_failure_propagates scenarioRegistry 1 fourWeightParser rfl scenarioReader 0 3
      scenarioMeta () (Thrown.runtime_error "not enough weights") (by decide),
    by decide⟩

/-- Witness for C5: `parse(7, ...)` on a registry with no entry for `7` throws the unknown
architecture error for `7` and leaves the cursor at position `0` and the view at start `0`,
length `10`. -/
theorem C5_unknown_failure_is_atomic_witness :
    scenarioRegistry.has 7 = false ∧
    ((∃ e, (scenarioRegistry.parse 7 scenarioReader 0 10 scenarioMeta ()).outcome =
        Outcome.thrown e) ∧
     (scenarioRegistry.parse 7 scenarioReader 0 10 scenarioMeta ()).reader = scenarioReader ∧
     (∀ position : TestReader → Nat,
       position (scenarioRegistry.parse 7 scenarioReader 0 10 scenarioMeta ()).reader =
         position scenarioReader) ∧
     (scenarioRegistry.parse 7 scenarioReader 0 10 scenarioMeta ()).weights = 0 ∧
     (scenarioRegistry.parse 7 scenarioReader 0 10 scenarioMeta ()).weight_count = 10) ∧
    scenarioRegistry.parse 7 scenarioReader 0 10 scenarioMeta () =
      ⟨Outcome.thrown (Thrown.runtime_error "NAMB: unknown architecture ID 7"),
        scenarioReader, 0, 10, ()⟩ :=
  ⟨by decide,
    C5_unknown_failure_is_atomic scenarioRegistry 7 (by decide) scenarioReader 0 10
      scenarioMeta (),
    by decide⟩

/-- Witness for C6, the scenario: id `1` is registered with a parser that reads one 32-bit
integer field and claims four weight values; `parse(1, ...)` with the cursor at `0` and a view of
length `10` starting at offset `0` returns a configuration object holding the field (`42`), and
the view has length `6` and starts at offset `4`. -/
theorem C6_consumed_prefix_is_visible_witness :
    scenarioRegistry.parsers_.lookup 1 = some fourWeightParser ∧
    4 ≤ 10 ∧ 10 < SIZE_MODULUS ∧
    Consumes fourWeightParser 4 scenarioReader 0 10 scenarioMeta () ∧
    ((scenarioRegistry.parse 1 scenarioReader 0 10 scenarioMeta ()).weight_count = 10 - 4 ∧
     (scenarioRegistry.parse 1 scenarioReader 0 10 scenarioMeta ()).weights = 0 + 4) ∧
    scenarioRegistry.parse 1 scenarioReader 0 10 scenarioMeta () =
      ⟨Outcome.returned (some ⟨42⟩), ⟨scenarioReader.data, 4⟩, 4, 6, ()⟩ :=
  ⟨rfl, by decide, by decide, by unfold Consumes; decide,
    C6_consumed_prefix_is_visible scenarioRegistry 1 fourWeightParser rfl 10 4 (by decide)
      (by decide) scenarioReader 0 scenarioMeta () (by unfold Consumes; decide),
    by decide⟩

/-- Counterexample to C7 as stated: a registered parser that steps the view back returns
successfully through `parse`, and the view after the call (start `3`, count `7`) is not a suffix
of the view before it (start `4`, count `6`). -/
theorem C7_suffix_invariant_counterexample :
    rewindingRegistry.has 2 = true ∧
    (rewindingRegistry.parse 2 scenarioReader 4 6 scenarioMeta ()).outcome =
      Outcome.returned (some ⟨0⟩) ∧
    (rewindingRegistry.parse 2 scenarioReader 4 6 scenarioMeta ()).weights = 3 ∧
    (rewindingRegistry.parse 2 scenarioReader 4 6 scenarioMeta ()).weight_count = 7 ∧
    ¬ IsSuffixView 4 6
      (rewindingRegistry.parse 2 scenarioReader 4 6 scenarioMeta ()).weights
      (rewindingRegistry.parse 2 scenarioReader 4 6 scenarioMeta ()).weight_count := by
  refine ⟨by decide, by decide, by decide, by decide, ?_⟩
  rintro ⟨j, -, hstart, -⟩
  have h3 : (rewindingRegistry.parse 2 scenarioReader 4 6 scenarioMeta ()).weights = 3 := by
    decide
  rw [h3] at hstart
  omega

/-- Witness for the amended C7: the scenario parser leaves the suffix that starts four elements
further on, and so does `parse`; the view the rewinding parser leaves (start `3`, count `7` from
start `4`, count `6`) is handed back as it is. -/
theorem C7_suffix_view_when_parser_keeps_it_witness :
    scenarioRegistry.parsers_.lookup 1 = some fourWeightParser ∧
    rewindingRegistry.parsers_.lookup 2 = some rewindingParser ∧
    IsSuffixView 0 10
      (scenarioRegistry.parse 1 scenarioReader 0 10 scenarioMeta ()).weights
      (scenarioRegistry.parse 1 scenarioReader 0 10 scenarioMeta ()).weight_count ∧
    (scenarioRegistry.parse 1 scenarioReader 0 10 scenarioMeta ()).weights = 4 ∧
    (scenarioRegistry.parse 1 scenarioReader 0 10 scenarioMeta ()).weight_count = 6 ∧
    (rewindingRegistry.parse 2 scenarioReader 4 6 scenarioMeta ()).weights =
      (rewindingParser scenarioReader 4 6 scenarioMeta ()).weights ∧
    (rewindingRegistry.parse 2 scenarioReader 4 6 scenarioMeta ()).weight_count =
      (rewindingParser scenarioReader 4 6 scenarioMeta ()).weight_count ∧
    (rewindingParser scenarioReader 4 6 scenarioMeta ()).weights = 3 ∧
    (rewindingParser scenarioReader 4 6 scenarioMeta ()).weight_count = 7 :=
  ⟨rfl, rfl,
    (C7_suffix_view_when_parser_keeps_it scenarioRegistry 1 fourWeightParser rfl scenarioReader
      0 10 scenarioMeta ()).2.2.1 ⟨4, by decide, by decide, by decide⟩,
    by decide, by decide,
    (C7_suffix_view_when_parser_keeps_it rewindingRegistry 2 rewindingParser rfl scenarioReader
      4 6 scenarioMeta ()).1,
    (C7_suffix_view_when_parser_keeps_it rewindingRegistry 2 rewindingParser rfl scenarioReader
      4 6 scenarioMeta ()).2.1,
    by decide, by decide⟩

/-- Witness for C12: with only id `1` registered, `parse(7, ...)` throws the error whose text is
`NAMB: unknown architecture ID 7`, from which `7` is recovered. -/
theorem C12_unknown_error_carries_decimal_id_witness :
    scenarioRegistry.has 7 = false ∧
    ((scenarioRegistry.parse 7 scenarioReader 0 10 scenarioMeta ()).outcome =
      Outcome.thrown
        (Thrown.runtime_error ("NAMB: unknown architecture ID " ++ decimalText 7)) ∧
     (scenarioRegistry.parse 7 scenarioReader 0 10 scenarioMeta ()).outcome ≠
      Outcome.thrown
        (Thrown.runtime_error
          ("NAMB: unknown architecture ID " ++ String.singleton (Char.ofNat 7))) ∧
     (Outcome.what (scenarioRegistry.parse 7 scenarioReader 0 10 scenarioMeta ()).outcome).bind
      recover_arch_id = some 7 ∧
     (∀ (other : ArchId) (registry : TestRegistry) (reader' : TestReader)
        (weights' weight_count' : Nat) (meta' : TestMetadata) (env' : Unit),
      registry.has other = false →
      (registry.parse other reader' weights' weight_count' meta' env').outcome =
        (scenarioRegistry.parse 7 scenarioReader 0 10 scenarioMeta ()).outcome →
      other = 7)) ∧
    (scenarioRegistry.parse 7 scenarioReader 0 10 scenarioMeta ()).outcome =
      Outcome.thrown (Thrown.runtime_error "NAMB: unknown architecture ID 7") ∧
    (rewindingRegistry.parse 255 scenarioReader 0 10 scenarioMeta ()).outcome =
      Outcome.thrown (Thrown.runtime_error "NAMB: unknown architecture ID 255") :=
  ⟨by decide,
    C12_unknown_error_carries_decimal_id scenarioRegistry 7 (by decide) scenarioReader 0 10
      scenarioMeta (),
    by decide, by decide⟩

/-- Witness for C13: registering id `2` in the scenario registry leaves id `1` (registered) as it
was; the results for id `7` (unregistered) are evaluated alongside. -/
theorem C13_registration_is_local_witness :
    (2 : ArchId) ≠ 1 ∧
    ((scenarioRegistry.registerParser 2 rewindingParser).parsers_.lookup 1 =
      scenarioRegistry.parsers_.lookup 1 ∧
     (scenarioRegistry.registerParser 2 rewindingParser).has 1 = scenarioRegistry.has 1 ∧
     (∀ (reader : TestReader) (weights weight_count : Nat) (meta : TestMetadata) (env : Unit),
      (scenarioRegistry.registerParser 2 rewindingParser).parse 1 reader weights weight_count
          meta env = scenarioRegistry.parse 1 reader weights weight_count meta env)) ∧
    (scenarioRegistry.registerParser 2 rewindingParser).has 7 = false ∧
    (scenarioRegistry.registerParser 2 rewindingParser).parse 1 scenarioReader 0 10
        scenarioMeta () =
      ⟨Outcome.returned (some ⟨42⟩), ⟨scenarioReader.data, 4⟩, 4, 6, ()⟩ :=
  ⟨by decide, C13_registration_is_local scenarioRegistry 2 1 (by decide) rewindingParser,
    by decide, by decide⟩

/-- Witness for C14: ids `1` and `2` registered in either order on the empty registry give the
same results for id `1`, id `2` and the unregistered id `7`. -/
theorem C14_registration_order_per_key_witness :
    (1 : ArchId) ≠ 2 ∧
    ((∀ other : ArchId,
        (((BinaryConfigParserRegistry.empty : TestRegistry).registerParser 1
            fourWeightParser).registerParser 2 rewindingParser).has other =
          (((BinaryConfigParserRegistry.empty : TestRegistry).registerParser 2
            rewindingParser).registerParser 1 fourWeightParser).has other) ∧
     (∀ (other : ArchId) (reader : TestReader) (weights weight_count : Nat)
          (meta : TestMetadata) (env : Unit),
        (((BinaryConfigParserRegistry.empty : TestRegistry).registerParser 1
            fourWeightParser).registerParser 2 rewindingParser).parse other reader weights
            weight_count meta env =
          (((BinaryConfigParserRegistry.empty : TestRegistry).registerParser 2
            rewindingParser).registerParser 1 fourWeightParser).parse other reader weights
            weight_count meta env) ∧
     (((BinaryConfigParserRegistry.empty : TestRegistry).registerParser 1
          fourWeightParser).registerParser 2 rewindingParser).parsers_.entries.length =
        (((BinaryConfigParserRegistry.empty : TestRegistry).registerParser 2
          rewindingParser).registerParser 1 fourWeightParser).parsers_.entries.length) ∧
    (((BinaryConfigParserRegistry.empty : TestRegistry).registerParser 2
        rewindingParser).registerParser 1 fourWeightParser).parse 2 scenarioReader 4 6
        scenarioMeta () =
      ⟨Outcome.returned (some ⟨0⟩), scenarioReader, 3, 7, ()⟩ :=
  ⟨by decide,
    (C14_registration_order_per_key BinaryConfigParserRegistry.empty 1 2 fourWeightParser
      rewindingParser).1 (by decide),
    by decide⟩

end nam.namb
